import Mathlib

/-!
Shallow embedding of the Kafka-style broker core from this repository
(`src/lib.rs`, `src/readers.rs`), together with theorems checking the
natural-language specification against it.

Modelling conventions:
* Byte buffers are `List Nat`; each entry stands for one `u8`, and the
  decoders reduce every byte mod 256 (exactly the range a `u8` has).
* Rust `Result<T, KafkaError>` becomes `Except KafkaError T`.
* A mutable `Cursor<&[u8]>` becomes explicit state passing: a reader takes
  the bytes still ahead of the cursor and returns the value together with
  the bytes left after it (`Reader`).
* Rust `String` values are represented by their UTF-8 byte sequences; the
  validation done by `String::from_utf8` is modelled by `utf8Valid`.
* The `todo!()` arm of `process_request` aborts the task; this is modelled
  as an explicit third outcome `DispatchResult.panic` of the dispatcher.
* The async connection loop is modelled as a function from the incoming
  byte stream to the list of response frames written back, with an explicit
  iteration bound (each iteration handles one request frame).
-/

deriving instance DecidableEq for Except

namespace CCKafka

/-- Big-endian unsigned value of a byte list; each byte is taken mod 256,
the range of a `u8`. -/
def beNat (bs : List Nat) : Nat := bs.foldl (fun acc b => acc * 256 + b % 256) 0

/-- Twos-complement signed reinterpretation of `n` at width `w` bits. -/
def toSigned (w : Nat) (n : Nat) : Int :=
  if n % 2 ^ w < 2 ^ (w - 1) then (n % 2 ^ w : Int) else (n % 2 ^ w : Int) - 2 ^ w

/-- Signed big-endian decode of `bs` as an `8 * bs.length`-bit integer
(Rust `iN::from_be_bytes`). -/
def beSigned (bs : List Nat) : Int := toSigned (8 * bs.length) (beNat bs)

/-- Big-endian bytes of `v` as a `w`-byte twos-complement integer
(Rust `iN::to_be_bytes`). -/
def beBytes (w : Nat) (v : Int) : List Nat :=
  (List.range w).map (fun i => ((v % (2 ^ (8 * w))).toNat / 256 ^ (w - 1 - i)) % 256)

/-- Embedding of `KafkaError` from `lib.rs`. The payloads of `Io` (an `std::io::Error`)
and `InvalidString` (a `FromUtf8Error`) carry no information the protocol
logic inspects, so they are dropped; `Io` is spelled `IoErr` here. -/
inductive KafkaError where
  | IoErr
  | InvalidMessageLength (n : Int)
  | UnsupportedApiVersion (v : Int)
  | InvalidString
  | UnsupportedApiKey (k : Int)
  | CorruptedMessage (msg : String)
deriving DecidableEq, Repr

def UNKNOWN_SERVER_ERROR : Int := -1
def NONE : Int := 0
def CORRUPT_MESSAGE : Int := 2
def UNSUPPORTED_VERSION : Int := 35
def INVALID_REQUEST : Int := 42

/-- Embedding of `KafkaError::to_error_code` from `lib.rs`. -/
def KafkaError.to_error_code : KafkaError → Int
  | .IoErr => UNKNOWN_SERVER_ERROR
  | .UnsupportedApiKey _ => INVALID_REQUEST
  | .InvalidMessageLength _ => CORRUPT_MESSAGE
  | .InvalidString => CORRUPT_MESSAGE
  | .UnsupportedApiVersion _ => UNSUPPORTED_VERSION
  | .CorruptedMessage _ => CORRUPT_MESSAGE

def FETCH : Int := 1
def APIVERSIONS : Int := 18

/-- A reader consumes a prefix of the byte list ahead of the cursor and
returns the decoded value together with the bytes left behind the cursor. -/
abbrev Reader (α : Type) := List Nat → Except KafkaError (α × List Nat)

/-- Sequencing of two reads on the same cursor (the `?` chaining of the
source). -/
def rbind {α β : Type} (p : Reader α) (f : α → Reader β) : Reader β := fun s =>
  match p s with
  | .error e => .error e
  | .ok (a, s') => f a s'

/-- A read that consumes nothing and returns `a` (the `Ok(...)` result). -/
def rpure {α : Type} (a : α) : Reader α := fun s => .ok (a, s)

/-- A read that fails with `e` (an early `return Err(...)`). -/
def rfail {α : Type} (e : KafkaError) : Reader α := fun _ => .error e

/-- Embedding of `Read::read_exact` on a cursor: yields the next `k` bytes, or the
I/O error `read_exact` raises when fewer than `k` bytes remain. -/
def read_exact (k : Nat) : Reader (List Nat) := fun s =>
  if k ≤ s.length then .ok (s.take k, s.drop k) else .error .IoErr

/-- Shared shape of `read_int8` .. `read_int128` from `readers.rs`: read
`k` bytes and decode them big-endian signed. -/
def read_be (k : Nat) : Reader Int :=
  rbind (read_exact k) fun buf => rpure (beSigned buf)

def read_int8 : Reader Int := read_be 1
def read_int16 : Reader Int := read_be 2
def read_int32 : Reader Int := read_be 4
def read_int64 : Reader Int := read_be 8
def read_int128 : Reader Int := read_be 16

/-- UTF-8 validity of a byte sequence (the check `String::from_utf8`
performs): RFC 3629 — no overlong forms, no surrogates, limit U+10FFFF. -/
def utf8Valid : List Nat → Bool
  | [] => true
  | b :: bs =>
    if b ≤ 0x7F then utf8Valid bs
    else if 0xC2 ≤ b ∧ b ≤ 0xDF then
      match bs with
      | b1 :: bs' => (0x80 ≤ b1 && b1 ≤ 0xBF) && utf8Valid bs'
      | [] => false
    else if b = 0xE0 then
      match bs with
      | b1 :: b2 :: bs' => (0xA0 ≤ b1 && b1 ≤ 0xBF) && (0x80 ≤ b2 && b2 ≤ 0xBF) && utf8Valid bs'
      | _ => false
    else if (0xE1 ≤ b ∧ b ≤ 0xEC) ∨ b = 0xEE ∨ b = 0xEF then
      match bs with
      | b1 :: b2 :: bs' => (0x80 ≤ b1 && b1 ≤ 0xBF) && (0x80 ≤ b2 && b2 ≤ 0xBF) && utf8Valid bs'
      | _ => false
    else if b = 0xED then
      match bs with
      | b1 :: b2 :: bs' => (0x80 ≤ b1 && b1 ≤ 0x9F) && (0x80 ≤ b2 && b2 ≤ 0xBF) && utf8Valid bs'
      | _ => false
    else if b = 0xF0 then
      match bs with
      | b1 :: b2 :: b3 :: bs' =>
          (0x90 ≤ b1 && b1 ≤ 0xBF) && (0x80 ≤ b2 && b2 ≤ 0xBF) &&
            (0x80 ≤ b3 && b3 ≤ 0xBF) && utf8Valid bs'
      | _ => false
    else if 0xF1 ≤ b ∧ b ≤ 0xF3 then
      match bs with
      | b1 :: b2 :: b3 :: bs' =>
          (0x80 ≤ b1 && b1 ≤ 0xBF) && (0x80 ≤ b2 && b2 ≤ 0xBF) &&
            (0x80 ≤ b3 && b3 ≤ 0xBF) && utf8Valid bs'
      | _ => false
    else if b = 0xF4 then
      match bs with
      | b1 :: b2 :: b3 :: bs' =>
          (0x80 ≤ b1 && b1 ≤ 0x8F) && (0x80 ≤ b2 && b2 ≤ 0xBF) &&
            (0x80 ≤ b3 && b3 ≤ 0xBF) && utf8Valid bs'
      | _ => false
    else false

/-- Embedding of `read_nullable_string` from `readers.rs`: a 16-bit signed length, `-1`
meaning absent, any other negative length an `InvalidMessageLength`
failure, then that many bytes which must be valid UTF-8. -/
def read_nullable_string : Reader (Option (List Nat)) :=
  rbind read_int16 fun len =>
    if len = -1 then rpure none
    else if len < 0 then rfail (.InvalidMessageLength len)
    else rbind (read_exact len.toNat) fun buf =>
      if utf8Valid buf then rpure (some buf) else rfail .InvalidString

/-- Embedding of `KafkaRequestHeader` from `lib.rs`. -/
structure KafkaRequestHeader where
  api_key : Int
  api_ver : Int
  correlation_id : Int
  _client_id : Option (List Nat)
deriving DecidableEq, Repr

/-- The body of `KafkaRequestHeader::parse`, with the cursor state made
explicit. -/
def KafkaRequestHeader.parseRun : Reader KafkaRequestHeader :=
  rbind read_int16 fun api_key =>
  rbind read_int16 fun api_ver =>
  rbind read_int32 fun correlation_id =>
  rbind read_nullable_string fun _client_id =>
  rpure { api_key, api_ver, correlation_id, _client_id }

/-- Embedding of `KafkaRequestHeader::parse` from `lib.rs`: decode the header from the
front of `buffer`, discarding the final cursor. -/
def KafkaRequestHeader.parse (buffer : List Nat) : Except KafkaError KafkaRequestHeader :=
  match KafkaRequestHeader.parseRun buffer with
  | .ok (h, _) => .ok h
  | .error e => .error e

/-- Embedding of `RequestPartition` from `lib.rs`. -/
structure RequestPartition where
  partition : Int
  current_leader_epoch : Int
  fetch_offset : Int
  last_fetched_epoch : Int
  log_start_offset : Int
  partition_max_bytes : Int
deriving DecidableEq, Repr

/-- Embedding of `RequestTopic` from `lib.rs` (`topic_id` is an `i128`). -/
structure RequestTopic where
  topic_id : Int
  partitions : List RequestPartition
deriving DecidableEq, Repr

/-- Embedding of `ForgottenTopic` from `lib.rs`. -/
structure ForgottenTopic where
  topic_id : Int
  partitions : List Int
deriving DecidableEq, Repr

/-- Embedding of `FetchRequest` from `lib.rs`. -/
structure FetchRequest where
  correlation_id : Int
  max_wait_ms : Int
  min_bytes : Int
  max_bytes : Int
  isolation_level : Int
  session_id : Int
  session_epoch : Int
  topics : List RequestTopic
  forgotten_topics : List ForgottenTopic
  rack_id : List Nat
deriving DecidableEq, Repr

/-- One iteration of the inner partitions loop of `FetchRequest::parse`:
six fixed-width scalars followed by one discarded tag-buffer byte. -/
def parsePartition : Reader RequestPartition :=
  rbind read_int32 fun partition =>
  rbind read_int32 fun current_leader_epoch =>
  rbind read_int64 fun fetch_offset =>
  rbind read_int32 fun last_fetched_epoch =>
  rbind read_int64 fun log_start_offset =>
  rbind read_int32 fun partition_max_bytes =>
  rbind read_int8 fun _ =>
  rpure { partition, current_leader_epoch, fetch_offset, last_fetched_epoch,
          log_start_offset, partition_max_bytes }

/-- The partitions loop of `FetchRequest::parse`, iterated `n` times. -/
def parsePartitions : Nat → Reader (List RequestPartition)
  | 0 => rpure []
  | n + 1 =>
    rbind parsePartition fun p =>
    rbind (parsePartitions n) fun ps =>
    rpure (p :: ps)

/-- One iteration of the topics loop of `FetchRequest::parse`: a 128-bit
topic id, a partition count (negative is `CorruptedMessage`), then the
partitions. -/
def parseTopic : Reader RequestTopic :=
  rbind read_int128 fun topic_id =>
  rbind read_int32 fun partitions_size =>
  if partitions_size < 0 then
    rfail (.CorruptedMessage
      ("expected request\x27s fetched partitions size value to be greater than 0, got "
        ++ toString partitions_size))
  else
  rbind (parsePartitions partitions_size.toNat) fun partitions =>
  rpure { topic_id, partitions }

/-- The topics loop of `FetchRequest::parse`, iterated `n` times. -/
def parseTopics : Nat → Reader (List RequestTopic)
  | 0 => rpure []
  | n + 1 =>
    rbind parseTopic fun t =>
    rbind (parseTopics n) fun ts =>
    rpure (t :: ts)

/-- The inner partition-id loop of the forgotten-topics part of
`FetchRequest::parse`: `n` plain 32-bit reads. -/
def parseForgottenPartitions : Nat → Reader (List Int)
  | 0 => rpure []
  | n + 1 =>
    rbind read_int32 fun p =>
    rbind (parseForgottenPartitions n) fun ps =>
    rpure (p :: ps)

/-- One iteration of the forgotten-topics loop of `FetchRequest::parse`. -/
def parseForgottenTopic : Reader ForgottenTopic :=
  rbind read_int128 fun topic_id =>
  rbind read_int32 fun partitions_size =>
  if partitions_size < 0 then
    rfail (.CorruptedMessage
      ("expected request\x27s fetched partitions size value to be greater than 0, got "
        ++ toString partitions_size))
  else
  rbind (parseForgottenPartitions partitions_size.toNat) fun partitions =>
  rpure { topic_id, partitions }

/-- The forgotten-topics loop of `FetchRequest::parse`, iterated `n`
times. -/
def parseForgottenTopics : Nat → Reader (List ForgottenTopic)
  | 0 => rpure []
  | n + 1 =>
    rbind parseForgottenTopic fun t =>
    rbind (parseForgottenTopics n) fun ts =>
    rpure (t :: ts)

/-- The body of `FetchRequest::parse` from `lib.rs`, with the cursor state
made explicit: the scalar fields, the topics, a tag-buffer byte, the
forgotten topics, a tag-buffer byte, and the nullable rack id (absent
becomes the empty string via `unwrap_or_default`). -/
def FetchRequest.parseRun (correlation_id : Int) : Reader FetchRequest :=
  rbind read_int32 fun max_wait_ms =>
  rbind read_int32 fun min_bytes =>
  rbind read_int32 fun max_bytes =>
  rbind read_int8 fun isolation_level =>
  rbind read_int32 fun session_id =>
  rbind read_int32 fun session_epoch =>
  rbind read_int32 fun topics_size =>
  if topics_size < 0 then
    rfail (.CorruptedMessage
      ("expected request\x27s fetched topics size value to be greater than 0, got "
        ++ toString topics_size))
  else
  rbind (parseTopics topics_size.toNat) fun topics =>
  rbind read_int8 fun _ =>
  rbind read_int32 fun forgotten_size =>
  if forgotten_size < 0 then
    rfail (.CorruptedMessage
      ("expected request\x27s fetched forgotten topics size value to be greater than 0, got "
        ++ toString forgotten_size))
  else
  rbind (parseForgottenTopics forgotten_size.toNat) fun forgotten_topics =>
  rbind read_int8 fun _ =>
  rbind read_nullable_string fun rack_opt =>
  rpure { correlation_id, max_wait_ms, min_bytes, max_bytes, isolation_level,
          session_id, session_epoch, topics, forgotten_topics,
          rack_id := rack_opt.getD [] }

/-- Embedding of `FetchRequest::parse` from `lib.rs`: run the body decoder on `buffer`
and discard the final cursor. -/
def FetchRequest.parse (buffer : List Nat) (correlation_id : Int) :
    Except KafkaError FetchRequest :=
  match FetchRequest.parseRun correlation_id buffer with
  | .ok (r, _) => .ok r
  | .error e => .error e

/-- Embedding of `ApiKeyVerInfo` from `lib.rs`. -/
structure ApiKeyVerInfo where
  id : Int
  min : Int
  max : Int
deriving DecidableEq, Repr

/-- Embedding of `API_VERS_INFO` from `lib.rs`: the Supported-API Table. -/
def API_VERS_INFO : List ApiKeyVerInfo :=
  [{ id := APIVERSIONS, min := 4, max := 4 },
   { id := FETCH, min := 16, max := 16 }]

/-- Embedding of `TAG_BUFFER` from `lib.rs`: a single zero byte. -/
def TAG_BUFFER : List Nat := [0]

/-- Embedding of `ApiVersionsResponse` from `lib.rs` (it always holds `API_VERS_INFO`,
kept as a field as in the source). -/
structure ApiVersionsResponse where
  correlation_id : Int
  api_key_versions : List ApiKeyVerInfo
deriving DecidableEq, Repr

/-- Embedding of `ResponsePartition` from `lib.rs`. -/
structure ResponsePartition where
  partition_index : Int
  error_code : Int
deriving DecidableEq, Repr

/-- Embedding of `ResponseTopic` from `lib.rs`. -/
structure ResponseTopic where
  topic_id : Int
  partitions : List ResponsePartition
deriving DecidableEq, Repr

/-- Embedding of `FetchResponse` from `lib.rs`. -/
structure FetchResponse where
  correlation_id : Int
  throttle_time_ms : Int
  session_id : Int
  responses : List ResponseTopic
deriving DecidableEq, Repr

/-- Embedding of `ErrorResponse` from `lib.rs`. -/
structure ErrorResponse where
  correlation_id : Int
  error_code : Int
deriving DecidableEq, Repr

/-- Embedding of `KafkaResponse` from `lib.rs`. -/
inductive KafkaResponse where
  | ApiVersions (r : ApiVersionsResponse)
  | Error (r : ErrorResponse)
  | Fetch (r : FetchResponse)
deriving DecidableEq, Repr

/-- The outcome of the dispatcher: `Ok`, `Err`, or the `todo!()` arm,
which aborts instead of returning. -/
inductive DispatchResult where
  | ok (r : KafkaResponse)
  | err (e : KafkaError)
  | panic
deriving DecidableEq, Repr

/-- Embedding of `process_request` from `lib.rs`. Both supported branches gate the
version with `!(0..=4).contains(&api_ver)`; the catch-all arm is
`todo!()`. -/
def process_request (request_header : KafkaRequestHeader) (request_buffer : List Nat) :
    DispatchResult :=
  if request_header.api_key = APIVERSIONS then
    if request_header.api_ver < 0 ∨ 4 < request_header.api_ver then
      .err (.UnsupportedApiVersion request_header.api_ver)
    else
      .ok (.ApiVersions { correlation_id := request_header.correlation_id,
                          api_key_versions := API_VERS_INFO })
  else if request_header.api_key = FETCH then
    if request_header.api_ver < 0 ∨ 4 < request_header.api_ver then
      .err (.UnsupportedApiVersion request_header.api_ver)
    else
      match FetchRequest.parse request_buffer request_header.correlation_id with
      | .error e => .err e
      | .ok request =>
          .ok (.Fetch { correlation_id := request.correlation_id,
                        throttle_time_ms := 0,
                        session_id := request.session_id,
                        responses := [] })
  else
    .panic

/-- The bytes one `ApiKeyVerInfo` contributes inside the `api_keys` loop
of `send_response`. -/
def encodeApiKey (k : ApiKeyVerInfo) : List Nat :=
  beBytes 2 k.id ++ beBytes 2 k.min ++ beBytes 2 k.max ++ TAG_BUFFER

/-- The compact-array count byte: `len as u8 + 1` with `u8` wrap-around. -/
def lenByte (n : Nat) : Nat := (n % 256 + 1) % 256

/-- The bytes one partition contributes inside the partitions loop of the
Fetch arm of `send_response`. -/
def encodeResponsePartition (p : ResponsePartition) : List Nat :=
  beBytes 4 p.partition_index ++ beBytes 2 p.error_code ++ TAG_BUFFER

/-- The bytes one topic contributes inside the responses loop of the
Fetch arm of `send_response`. -/
def encodeResponseTopic (t : ResponseTopic) : List Nat :=
  beBytes 16 t.topic_id ++ [lenByte t.partitions.length]
    ++ (t.partitions.map encodeResponsePartition).flatten ++ TAG_BUFFER

/-- The `res_buf` built by `send_response` in `lib.rs` for each response
variant, before the length prefix is added. -/
def send_response_buf : KafkaResponse → List Nat
  | .ApiVersions a =>
      beBytes 4 a.correlation_id ++ beBytes 2 NONE
        ++ [lenByte a.api_key_versions.length]
        ++ (a.api_key_versions.map encodeApiKey).flatten
        ++ [0, 0, 0, 0] ++ TAG_BUFFER
  | .Fetch f =>
      beBytes 4 f.throttle_time_ms ++ beBytes 4 f.correlation_id
        ++ beBytes 2 NONE ++ beBytes 4 f.session_id
        ++ [lenByte f.responses.length]
        ++ (f.responses.map encodeResponseTopic).flatten
        ++ TAG_BUFFER
  | .Error e => beBytes 4 e.correlation_id ++ beBytes 2 e.error_code

/-- Embedding of `write_response_with_len` from `lib.rs`: the bytes put on the wire, a
4-byte big-endian signed length followed by the payload. -/
def write_response_with_len (response_buffer : List Nat) : List Nat :=
  beBytes 4 (response_buffer.length : Int) ++ response_buffer

/-- Embedding of `read_request` from `lib.rs`, over an explicit incoming byte stream.
Returns the result together with the stream state after the call: the
4-byte length is read first; a decoded length `≤ 0` or `> 1_000_000`
fails with `InvalidMessageLength` before any body byte is consumed;
otherwise exactly that many body bytes are read, or `read_exact` fails
with an I/O error when the peer closed early. -/
def read_request (s : List Nat) : Except KafkaError (List Nat) × List Nat :=
  if 4 ≤ s.length then
    let size : Int := beSigned (s.take 4)
    let s' := s.drop 4
    if size ≤ 0 ∨ 1000000 < size then (.error (.InvalidMessageLength size), s')
    else if size.toNat ≤ s'.length then (.ok (s'.take size.toNat), s'.drop size.toNat)
    else (.error .IoErr, s')
  else (.error .IoErr, s)

/-- Embedding of `handle_connection` from `lib.rs`, as a function from the incoming
byte stream to the list of response frames written back. The first
argument bounds the number of loop iterations (one request frame per
iteration); an exhausted bound, a frame-read failure, a header-decode
failure and the `todo!()` panic all end the connection with nothing
further written, while a dispatch error becomes an `ErrorResponse` frame
and the loop continues. -/
def handle_connection : Nat → List Nat → List (List Nat)
  | 0, _ => []
  | fuel + 1, s =>
    match read_request s with
    | (.error _, _) => []
    | (.ok request_buffer, s') =>
      match KafkaRequestHeader.parse request_buffer with
      | .error _ => []
      | .ok request_header =>
        match process_request request_header request_buffer with
        | .panic => []
        | .ok response =>
            write_response_with_len (send_response_buf response)
              :: handle_connection fuel s'
        | .err e =>
            write_response_with_len (send_response_buf
                (.Error { correlation_id := request_header.correlation_id,
                          error_code := e.to_error_code }))
              :: handle_connection fuel s'

/-- A single unsigned byte read, used by the spec-side response decoder
for the compact-array count and tag-buffer positions. -/
def readU8 : Reader Nat := fun s =>
  match s with
  | [] => .error .IoErr
  | b :: rest => .ok (b % 256, rest)

/-- The decoded form of a VersionNegotiation response body. -/
structure DecodedApiVersions where
  correlation_id : Int
  error_code : Int
  entries : List ApiKeyVerInfo
  throttle_time_ms : Int
deriving DecidableEq, Repr

/-- Modelled from the spec (§6, VersionNegotiation response body): the
per-entry layout `api_key: i16, min_version: i16, max_version: i16,
tag_buffer: u8`, iterated `n` times. This decoder exists only to state
what the emitted bytes decode to; it is written from the wording of the
spec, not from the source. -/
def specDecodeEntries : Nat → Reader (List ApiKeyVerInfo)
  | 0 => rpure []
  | n + 1 =>
    rbind read_int16 fun id =>
    rbind read_int16 fun mn =>
    rbind read_int16 fun mx =>
    rbind readU8 fun _ =>
    rbind (specDecodeEntries n) fun rest =>
    rpure ({ id := id, min := mn, max := mx } :: rest)

/-- Modelled from the spec (§6): the VersionNegotiation response body
layout `correlation_id: i32, error_code: i16, api_key_count_plus_one: u8,
entries, throttle_time_ms: i32, tag_buffer: u8`; a count byte `c` holds
`c - 1` entries. Written from the wording of the spec, not from the
source. -/
def specDecodeApiVersionsBody (bs : List Nat) : Except KafkaError DecodedApiVersions :=
  match
    (rbind read_int32 fun correlation_id =>
     rbind read_int16 fun error_code =>
     rbind readU8 fun cnt =>
     rbind (specDecodeEntries (cnt - 1)) fun entries =>
     rbind read_int32 fun throttle_time_ms =>
     rbind readU8 fun _ =>
     rpure { correlation_id, error_code, entries, throttle_time_ms,
             : DecodedApiVersions }) bs
  with
  | .ok (d, _) => .ok d
  | .error e => .error e

/-- A VersionNegotiation request frame: `api_key = 18`, `api_version = 4`,
`correlation_id = 7`, `client_id` absent. -/
def frameC4 : List Nat := [0, 18, 0, 4, 0, 0, 0, 7, 255, 255]

/-- A Fetch request frame: the 10-byte header `api_key = 1`,
`api_version = 4`, `correlation_id = 7`, `client_id` absent, followed by a
25-byte body whose scalar fields are all zero and whose topic-count field
(body offset 21, frame offset 31) is `-1`. -/
def fetchFrameA : List Nat :=
  [0, 1, 0, 4, 0, 0, 0, 7, 255, 255]
    ++ (List.replicate 21 0 ++ [255, 255, 255, 255])

/-- A Fetch request frame: the 10-byte header `api_key = 1`,
`api_version = 4`, `correlation_id = 7`, `client_id` absent, followed by a
33-byte body laid out per §6: `max_wait_ms = 1`, every other scalar zero,
`topic_count = 0`, `forgotten_count = 0`, both tag bytes zero, and
`rack_id` absent (length `-1`). -/
def fetchFrameB : List Nat :=
  [0, 1, 0, 4, 0, 0, 0, 7, 255, 255]
    ++ ([0, 0, 0, 1] ++ List.replicate 27 0 ++ [255, 255])

/-- The 33-byte all-zero well-formed Fetch body: all scalars zero,
`topic_count = 0`, `forgotten_count = 0`, zero tag bytes, `rack_id` of
length `0`. -/
def fetchBodyZ : List Nat := List.replicate 33 0

/-- A reader only looks at the bytes it consumes: running it on an input
extended by `t` succeeds with the same value and `t` still ahead of the
cursor. -/
def Extends {α : Type} (p : Reader α) : Prop :=
  ∀ s t a r, p s = .ok (a, r) → p (s ++ t) = .ok (a, r ++ t)

theorem ext_rpure {α : Type} (a : α) : Extends (rpure a) := by
  intro s t a' r h
  simp only [rpure, Except.ok.injEq, Prod.mk.injEq] at h ⊢
  exact ⟨h.1, by rw [h.2]⟩

theorem ext_rfail {α : Type} (e : KafkaError) : Extends (rfail (α := α) e) := by
  intro s t a r h
  simp [rfail] at h

theorem ext_rbind {α β : Type} {p : Reader α} {f : α → Reader β}
    (hp : Extends p) (hf : ∀ a, Extends (f a)) : Extends (rbind p f) := by
  intro s t b r h
  unfold rbind at h ⊢
  cases hx : p s with
  | error e => rw [hx] at h; exact absurd h (by simp)
  | ok x =>
    obtain ⟨a, s'⟩ := x
    rw [hx] at h
    rw [hp s t a s' hx]
    exact hf a s' t b r h

theorem ext_ite {α : Type} (c : Prop) [Decidable c] {p q : Reader α}
    (hp : Extends p) (hq : Extends q) : Extends (if c then p else q) := by
  split
  · exact hp
  · exact hq

theorem ext_read_exact (k : Nat) : Extends (read_exact k) := by
  intro s t a r h
  unfold read_exact at h ⊢
  split at h
  case isTrue hk =>
    rw [if_pos (by simpa using Nat.le_add_right_of_le hk)]
    obtain ⟨ha, hr⟩ := Prod.mk.inj (Except.ok.inj h)
    rw [← ha, ← hr, List.take_append_of_le_length hk, List.drop_append_of_le_length hk]
  case isFalse => cases h

theorem ext_read_be (k : Nat) : Extends (read_be k) :=
  ext_rbind (ext_read_exact k) fun _ => ext_rpure _

theorem ext_read_nullable_string : Extends read_nullable_string :=
  ext_rbind (ext_read_be 2) fun len =>
    ext_ite _ (ext_rpure _) (ext_ite _ (ext_rfail _)
      (ext_rbind (ext_read_exact len.toNat) fun _ =>
        ext_ite _ (ext_rpure _) (ext_rfail _)))

theorem ext_parsePartition : Extends parsePartition :=
  ext_rbind (ext_read_be 4) fun _ =>
  ext_rbind (ext_read_be 4) fun _ =>
  ext_rbind (ext_read_be 8) fun _ =>
  ext_rbind (ext_read_be 4) fun _ =>
  ext_rbind (ext_read_be 8) fun _ =>
  ext_rbind (ext_read_be 4) fun _ =>
  ext_rbind (ext_read_be 1) fun _ =>
  ext_rpure _

theorem ext_parsePartitions (n : Nat) : Extends (parsePartitions n) := by
  induction n with
  | zero => exact ext_rpure _
  | succ n ih =>
    exact ext_rbind ext_parsePartition fun p =>
      ext_rbind ih fun ps => ext_rpure _

theorem ext_parseTopic : Extends parseTopic :=
  ext_rbind (ext_read_be 16) fun _ =>
  ext_rbind (ext_read_be 4) fun ps =>
  ext_ite _ (ext_rfail _)
    (ext_rbind (ext_parsePartitions ps.toNat) fun _ => ext_rpure _)

theorem ext_parseTopics (n : Nat) : Extends (parseTopics n) := by
  induction n with
  | zero => exact ext_rpure _
  | succ n ih =>
    exact ext_rbind ext_parseTopic fun t =>
      ext_rbind ih fun ts => ext_rpure _

theorem ext_parseForgottenPartitions (n : Nat) : Extends (parseForgottenPartitions n) := by
  induction n with
  | zero => exact ext_rpure _
  | succ n ih =>
    exact ext_rbind (ext_read_be 4) fun p =>
      ext_rbind ih fun ps => ext_rpure _

theorem ext_parseForgottenTopic : Extends parseForgottenTopic :=
  ext_rbind (ext_read_be 16) fun _ =>
  ext_rbind (ext_read_be 4) fun ps =>
  ext_ite _ (ext_rfail _)
    (ext_rbind (ext_parseForgottenPartitions ps.toNat) fun _ => ext_rpure _)

theorem ext_parseForgottenTopics (n : Nat) : Extends (parseForgottenTopics n) := by
  induction n with
  | zero => exact ext_rpure _
  | succ n ih =>
    exact ext_rbind ext_parseForgottenTopic fun t =>
      ext_rbind ih fun ts => ext_rpure _

theorem ext_fetchParseRun (cid : Int) : Extends (FetchRequest.parseRun cid) :=
  ext_rbind (ext_read_be 4) fun _ =>
  ext_rbind (ext_read_be 4) fun _ =>
  ext_rbind (ext_read_be 4) fun _ =>
  ext_rbind (ext_read_be 1) fun _ =>
  ext_rbind (ext_read_be 4) fun _ =>
  ext_rbind (ext_read_be 4) fun _ =>
  ext_rbind (ext_read_be 4) fun ts =>
  ext_ite _ (ext_rfail _)
    (ext_rbind (ext_parseTopics ts.toNat) fun _ =>
     ext_rbind (ext_read_be 1) fun _ =>
     ext_rbind (ext_read_be 4) fun fs =>
     ext_ite _ (ext_rfail _)
       (ext_rbind (ext_parseForgottenTopics fs.toNat) fun _ =>
        ext_rbind (ext_read_be 1) fun _ =>
        ext_rbind ext_read_nullable_string fun _ =>
        ext_rpure _))

theorem beBytes_length (w : Nat) (v : Int) : (beBytes w v).length = w := by
  simp [beBytes]

/-- Claim C1: the claim says dispatch rejects a version exactly when it is
outside the Supported-API Table range of the key. The code instead gates
both keys with `(0..=4)`: for key 1 (Fetch) the table advertises
`[16, 16]`, yet version 16 is rejected with `UnsupportedApiVersion`
(error code 35), and for key 18 the table advertises `[4, 4]`, yet
version 0 is accepted. -/
theorem c1_version_check_ignores_table :
    API_VERS_INFO.find? (fun k => k.id == FETCH) = some { id := 1, min := 16, max := 16 }
    ∧ process_request { api_key := 1, api_ver := 16, correlation_id := 7, _client_id := none } []
        = .err (.UnsupportedApiVersion 16)
    ∧ (KafkaError.UnsupportedApiVersion 16).to_error_code = 35
    ∧ API_VERS_INFO.find? (fun k => k.id == APIVERSIONS) = some { id := 18, min := 4, max := 4 }
    ∧ process_request { api_key := 18, api_ver := 0, correlation_id := 7, _client_id := none } []
        = .ok (.ApiVersions { correlation_id := 7, api_key_versions := API_VERS_INFO }) := by
  decide

/-- Claim C2, counterexample: a request whose `api_key` (here 0) is absent
from the Supported-API Table does not fail with `UnsupportedApiKey`; the
dispatcher hits the `todo!()` arm and panics, so it is not total. -/
theorem c2_counterexample :
    process_request { api_key := 0, api_ver := 0, correlation_id := 1, _client_id := none } []
      = .panic := by
  decide

/-- Claim C2, amended: for every request whose `api_key` is absent from
the Supported-API Table (any key other than 18 and 1), dispatch reaches
the `todo!()` arm and panics instead of returning `UnsupportedApiKey`;
the error mapper does map `UnsupportedApiKey` to error code 42, but no
code path constructs that error. -/
theorem c2_unknown_key_panics (h : KafkaRequestHeader) (buf : List Nat)
    (h18 : h.api_key ≠ APIVERSIONS) (h1 : h.api_key ≠ FETCH) :
    process_request h buf = .panic
    ∧ (KafkaError.UnsupportedApiKey h.api_key).to_error_code = 42 := by
  unfold process_request
  rw [if_neg h18, if_neg h1]
  exact ⟨rfl, rfl⟩

/-- Claim C2, witness for the amended claim at `api_key = 5`. -/
theorem c2_unknown_key_panics_witness :
    process_request { api_key := 5, api_ver := 0, correlation_id := 9, _client_id := none } []
      = .panic
    ∧ (KafkaError.UnsupportedApiKey 5).to_error_code = 42 :=
  c2_unknown_key_panics
    { api_key := 5, api_ver := 0, correlation_id := 9, _client_id := none } []
    (by decide) (by decide)

/-- Claim C3: the claim says each decoded Fetch field equals the wire
field at its position after the header. On `fetchFrameA` the header is
the first 10 bytes and the `max_wait_ms` field of the body (frame offset 10)
is 0, but the decoder is handed the whole frame, so it decodes
`max_wait_ms` from frame offset 0 — the `api_key`/`api_version` bytes
`[0, 1, 0, 4]`, i.e. 65540. -/
theorem c3_fetch_decoder_reads_frame_start :
    KafkaRequestHeader.parse fetchFrameA
      = .ok { api_key := 1, api_ver := 4, correlation_id := 7, _client_id := none }
    ∧ beSigned ((fetchFrameA.drop 10).take 4) = 0
    ∧ beSigned (fetchFrameA.take 4) = 65540
    ∧ ((FetchRequest.parse fetchFrameA 7).map fun r => r.max_wait_ms) = .ok 65540
    ∧ (65540 : Int) ≠ 0 := by
  decide

/-- Claim C4, counterexample: the request frame with `api_key = 18`,
`api_version = 4`, `correlation_id = 7`, `client_id` absent yields a
response whose body decodes (per the §6 layout) to correlation id 7,
error code 0 and throttle 0, but with TWO api-key entries —
`{18, 4, 4}` and `{1, 16, 16}` — not exactly one. -/
theorem c4_counterexample :
    KafkaRequestHeader.parse frameC4
      = .ok { api_key := 18, api_ver := 4, correlation_id := 7, _client_id := none }
    ∧ process_request { api_key := 18, api_ver := 4, correlation_id := 7, _client_id := none }
        frameC4
      = .ok (.ApiVersions { correlation_id := 7, api_key_versions := API_VERS_INFO })
    ∧ specDecodeApiVersionsBody (send_response_buf
        (.ApiVersions { correlation_id := 7, api_key_versions := API_VERS_INFO }))
      = .ok { correlation_id := 7, error_code := 0,
              entries := [{ id := 18, min := 4, max := 4 }, { id := 1, min := 16, max := 16 }],
              throttle_time_ms := 0 }
    ∧ ([{ id := 18, min := 4, max := 4 }, { id := 1, min := 16, max := 16 }]
        : List ApiKeyVerInfo).length ≠ 1 := by
  decide

/-- Claim C4, amended: the same request frame yields exactly one response
frame whose body decodes (per the §6 layout) to `correlation_id = 7`,
`error_code = 0`, the two table entries `{18, 4, 4}` and `{1, 16, 16}`,
and `throttle_time_ms = 0`. -/
theorem c4_end_to_end_full_table :
    handle_connection 2 ([0, 0, 0, 10] ++ frameC4)
      = [write_response_with_len (send_response_buf
          (.ApiVersions { correlation_id := 7, api_key_versions := API_VERS_INFO }))]
    ∧ specDecodeApiVersionsBody (send_response_buf
        (.ApiVersions { correlation_id := 7, api_key_versions := API_VERS_INFO }))
      = .ok { correlation_id := 7, error_code := 0, entries := API_VERS_INFO,
              throttle_time_ms := 0 } := by
  decide

/-- Claim C6: the claim says a Fetch request whose body carries a negative
topic count is answered with an `ErrorResponse` of code 2. On the stream
holding `fetchFrameA`, whose body topic-count field (frame offset 31) is
`-1`, the decoder — run on the whole frame — reads its topic count from
frame offset 21 instead, parses successfully, and the connection loop
writes back a normal Fetch response frame, not the code-2 error frame. -/
theorem c6_negative_body_topic_count_not_rejected :
    beSigned ((fetchFrameA.drop 31).take 4) = -1
    ∧ handle_connection 2 ([0, 0, 0, 35] ++ fetchFrameA)
      = [write_response_with_len (send_response_buf
          (.Fetch { correlation_id := 7, throttle_time_ms := 0, session_id := 0,
                    responses := [] }))]
    ∧ write_response_with_len (send_response_buf
        (.Fetch { correlation_id := 7, throttle_time_ms := 0, session_id := 0,
                  responses := [] }))
      ≠ write_response_with_len (send_response_buf
          (.Error { correlation_id := 7, error_code := 2 })) := by
  decide

/-- Claim C7: the claim says the Fetch handler echoes the session_id field
of the wire request. On `fetchFrameB`, whose §6-layout body passes
decoding, the session_id field of the body (frame offset 23) is 0, but the
decoder — run on the whole frame — reads session_id from frame offset 13
and the handler echoes 16777216; throttle 0 and the empty topic-response
list do hold. -/
theorem c7_session_echo_wrong_offset :
    beSigned ((fetchFrameB.drop 23).take 4) = 0
    ∧ KafkaRequestHeader.parse fetchFrameB
      = .ok { api_key := 1, api_ver := 4, correlation_id := 7, _client_id := none }
    ∧ process_request { api_key := 1, api_ver := 4, correlation_id := 7, _client_id := none }
        fetchFrameB
      = .ok (.Fetch { correlation_id := 7, throttle_time_ms := 0, session_id := 16777216,
                      responses := [] })
    ∧ (16777216 : Int) ≠ 0 := by
  decide

/-- Claim C5: once the 4-byte length is read as `n`, `read_request` fails
with `InvalidMessageLength` exactly when `n ≤ 0` or `n > 1000000`, and in
that case the stream position is exactly past the 4 length bytes (no
body byte consumed); for in-range `n` it either fails with an I/O error
or returns a buffer of exactly `n` bytes, never a partial frame. -/
theorem c5_read_request_length_check (s : List Nat) (h4 : 4 ≤ s.length) :
    ((read_request s).1 = .error (.InvalidMessageLength (beSigned (s.take 4))) ↔
      (beSigned (s.take 4) ≤ 0 ∨ 1000000 < beSigned (s.take 4)))
    ∧ ((beSigned (s.take 4) ≤ 0 ∨ 1000000 < beSigned (s.take 4)) →
        (read_request s).2 = s.drop 4)
    ∧ (0 < beSigned (s.take 4) → beSigned (s.take 4) ≤ 1000000 →
        (read_request s).1 = .error .IoErr ∨
          ∃ buf, (read_request s).1 = .ok buf ∧
            buf.length = (beSigned (s.take 4)).toNat) := by
  unfold read_request
  rw [if_pos h4]
  by_cases hm : beSigned (s.take 4) ≤ 0 ∨ 1000000 < beSigned (s.take 4)
  · rw [if_pos hm]
    exact ⟨by simp [hm], fun _ => rfl, fun h1 h2 => absurd hm (by omega)⟩
  · rw [if_neg hm]
    by_cases hl : (beSigned (s.take 4)).toNat ≤ (s.drop 4).length
    · rw [if_pos hl]
      refine ⟨by simp [hm], fun hc => absurd hc hm, fun _ _ => .inr ⟨_, rfl, ?_⟩⟩
      simp only [List.length_take]
      omega
    · rw [if_neg hl]
      exact ⟨by simp [hm], fun hc => absurd hc hm, fun _ _ => .inl rfl⟩

/-- Claim C5, witness: on the stream `[255, 255, 255, 255, 9, 9]` the
length decodes to `-1`, `read_request` fails with the malformed-length
condition, and the two body bytes `[9, 9]` are still unconsumed. -/
theorem c5_read_request_length_check_witness :
    ((read_request [255, 255, 255, 255, 9, 9]).1
      = .error (.InvalidMessageLength (-1)))
    ∧ (read_request [255, 255, 255, 255, 9, 9]).2 = [9, 9] :=
  ⟨((c5_read_request_length_check [255, 255, 255, 255, 9, 9] (by decide)).1.mpr
      (by decide)).trans (by decide),
   (c5_read_request_length_check [255, 255, 255, 255, 9, 9] (by decide)).2.1
      (by decide)⟩

/-- Claim C8: the compact-array convention of the response encoders. The
count byte written is `lenByte`, which equals `n + 1` whenever
`0 ≤ n ≤ 254` (so an empty list emits the single byte 1), and it sits at
offset 6 of the VersionNegotiation body (after `correlation_id: i32` and
`error_code: i16`), at offset 14 of the Fetch body (after `throttle: i32`,
`correlation_id: i32`, `error_code: i16`, `session_id: i32`), and at
offset 16 of each per-topic block (after `topic_id: i128`). -/
theorem c8_compact_array_convention :
    (∀ n : Nat, n ≤ 254 → lenByte n = n + 1)
    ∧ lenByte 0 = 1
    ∧ (∀ a : ApiVersionsResponse, ∃ pre post,
        send_response_buf (.ApiVersions a)
          = pre ++ [lenByte a.api_key_versions.length] ++ post ∧ pre.length = 6)
    ∧ (∀ f : FetchResponse, ∃ pre post,
        send_response_buf (.Fetch f)
          = pre ++ [lenByte f.responses.length] ++ post ∧ pre.length = 14)
    ∧ (∀ t : ResponseTopic, ∃ pre post,
        encodeResponseTopic t
          = pre ++ [lenByte t.partitions.length] ++ post ∧ pre.length = 16) := by
  refine ⟨fun n hn => ?_, rfl, fun a => ?_, fun f => ?_, fun t => ?_⟩
  · simp only [lenByte]
    omega
  · exact ⟨beBytes 4 a.correlation_id ++ beBytes 2 NONE,
      (a.api_key_versions.map encodeApiKey).flatten ++ [0, 0, 0, 0] ++ TAG_BUFFER,
      by simp [send_response_buf, List.append_assoc],
      by simp [beBytes_length]⟩
  · exact ⟨beBytes 4 f.throttle_time_ms ++ beBytes 4 f.correlation_id
        ++ beBytes 2 NONE ++ beBytes 4 f.session_id,
      (f.responses.map encodeResponseTopic).flatten ++ TAG_BUFFER,
      by simp [send_response_buf, List.append_assoc],
      by simp [beBytes_length]⟩
  · exact ⟨beBytes 16 t.topic_id,
      (t.partitions.map encodeResponsePartition).flatten ++ TAG_BUFFER,
      by simp [encodeResponseTopic, List.append_assoc],
      by simp [beBytes_length]⟩

/-- Claim C8, witness: the bound `n ≤ 254` discharged at both ends, and
the concrete count byte of the table response. -/
theorem c8_compact_array_convention_witness :
    lenByte 0 = 0 + 1 ∧ lenByte 254 = 254 + 1 :=
  ⟨c8_compact_array_convention.1 0 (by decide),
   c8_compact_array_convention.1 254 (by decide)⟩

/-- Claim C9: whenever a request frame is read but its header fails to
decode, the connection handler returns with no response frame written for
it — the connection is closed silently, whatever iteration budget
remains. -/
theorem c9_header_decode_failure_writes_nothing
    (fuel : Nat) (s buf s' : List Nat) (e : KafkaError)
    (hread : read_request s = (.ok buf, s'))
    (hparse : KafkaRequestHeader.parse buf = .error e) :
    handle_connection fuel s = [] := by
  cases fuel with
  | zero => rfl
  | succ n => simp [handle_connection, hread, hparse]

/-- Claim C9, witness: a 1-byte frame whose header decode fails (short
buffer) yields no response bytes at all. -/
theorem c9_header_decode_failure_writes_nothing_witness :
    handle_connection 5 [0, 0, 0, 1, 0] = [] :=
  c9_header_decode_failure_writes_nothing 5 [0, 0, 0, 1, 0] [0] [] .IoErr
    (by decide) (by decide)

/-- Claim C10: the Fetch body decoder never requires its input to be fully
consumed: if parsing succeeds on `b`, parsing `b` with any trailing bytes
appended succeeds with the same `FetchRequest`; trailing bytes are
silently ignored. -/
theorem c10_fetch_parse_ignores_trailing (b t : List Nat) (cid : Int)
    (r : FetchRequest) (h : FetchRequest.parse b cid = .ok r) :
    FetchRequest.parse (b ++ t) cid = .ok r := by
  unfold FetchRequest.parse at h ⊢
  cases hx : FetchRequest.parseRun cid b with
  | error e => rw [hx] at h; cases h
  | ok x =>
    obtain ⟨r', rest⟩ := x
    rw [hx] at h
    have hr : r' = r := by simpa using h
    rw [ext_fetchParseRun cid b t r' rest hx]
    exact congrArg Except.ok hr

/-- Claim C10, witness: the 33-byte well-formed zero body parses to the
same value with two trailing bytes appended. -/
theorem c10_fetch_parse_ignores_trailing_witness :
    FetchRequest.parse (fetchBodyZ ++ [9, 9]) 0
      = .ok { correlation_id := 0, max_wait_ms := 0, min_bytes := 0, max_bytes := 0,
              isolation_level := 0, session_id := 0, session_epoch := 0,
              topics := [], forgotten_topics := [], rack_id := [] } :=
  c10_fetch_parse_ignores_trailing fetchBodyZ [9, 9] 0
    { correlation_id := 0, max_wait_ms := 0, min_bytes := 0, max_bytes := 0,
      isolation_level := 0, session_id := 0, session_epoch := 0,
      topics := [], forgotten_topics := [], rack_id := [] }
    (by decide)

end CCKafka
